import Mathlib

/-!
Shallow embedding of the flarexio/ai orchestration core.

Each definition is translated from the Python source under `src/`:
message/chunk model from `src/protocol.py`, the context-window selection
(`trim_messages` with `token_counter=len`, `strategy="last"`) as called in
`src/apps/iiot/iiot.py` and `src/apps/iiot/survey.py`, the routing and node
functions of the three orchestration graphs (`src/apps/iiot/iiot.py`,
`src/apps/iiot/survey.py`, `src/apps/iiot/integration/integration.py`),
the MongoDB entity repository (`src/persistences/db/iiot.py`), the session
repository (`src/persistences/db/chat.py`), and the default turn entry
points (`src/apps/base.py`).

Python exceptions are modelled with `Except String`; the external
model-inference collaborators (chat model, trustcall extractor, sub-agent
graphs) are passed in as explicit function arguments or as their result
values, since they are outside the verification scope.
-/

namespace FlarexAI

/-- Conversation roles, from `Role` in `src/protocol.py`. -/
inductive Role where
  | human
  | ai
  | system
  | tool
deriving DecidableEq, Repr

/-- A langchain-style tool call attached to an ai message: an `id` and an
`args` dict, here an association list from argument name to string value
(the graphs only ever read string-valued arguments: `route`,
`update_type`, `supervisor_message`). -/
structure ToolCall where
  id : String
  args : List (String × String)
deriving DecidableEq, Repr

/-- `args[k]` as an `Option` (Python raises `KeyError` when absent). -/
def ToolCall.arg (tc : ToolCall) (k : String) : Option String :=
  (tc.args.find? (fun p => p.1 == k)).map (fun p => p.2)

/-- `args.get(k, d)`: lookup with default. -/
def ToolCall.argD (tc : ToolCall) (k d : String) : String :=
  (tc.arg k).getD d

/-- A conversation message as carried in graph state: role, content, the
tool calls (non-empty only on ai decision messages) and the correlation id
(set only on tool messages). -/
structure Message where
  role : Role
  content : String
  tool_calls : List ToolCall := []
  tool_call_id : Option String := none
deriving DecidableEq, Repr

/-- Build the tool message `ToolMessage(content=c, tool_call_id=i)`. -/
def toolMessage (c : String) (i : String) : Message :=
  { role := Role.tool, content := c, tool_call_id := some i }

/-! ## Context-window selection

`trim_messages(msgs, max_tokens=B, token_counter=len, strategy="last",
start_on="human", end_on?)` from langchain as invoked by the source: with
`token_counter=len` every message costs one unit.  The implementation
(`_last_max_tokens`): first pop trailing messages whose type is not in
`end_on` (when given), then keep the longest trailing window of at most
`B` messages, then drop leading messages until the window starts on a
human message. -/

/-- Trailing trim: pop messages from the end while the last one does not
have a role in `roles` (`while messages and not _is_message_type(messages[-1], end_on)`). -/
def endOnTrim (roles : List Role) (msgs : List Message) : List Message :=
  (msgs.reverse.dropWhile (fun m => !(roles.contains m.role))).reverse

/-- The last `n` elements of a list (`messages[len-n:]`). -/
def takeRight (n : Nat) (l : List Message) : List Message :=
  l.drop (l.length - n)

/-- `trim_messages` with `strategy="last"`, `token_counter=len`,
`start_on="human"`, and an optional `end_on` role list, as used at
`src/apps/iiot/iiot.py:176-181` (no `end_on`) and
`src/apps/iiot/iiot.py:241-247` / `src/apps/iiot/survey.py:139-145`
(`end_on=["human", "ai"]`). -/
def trim_messages (msgs : List Message) (max_tokens : Nat)
    (end_on : Option (List Role)) : List Message :=
  let m1 := match end_on with
    | none => msgs
    | some roles => endOnTrim roles msgs
  let m2 := takeRight max_tokens m1
  m2.dropWhile (fun m => !(m.role == Role.human))

/-! ## Persisted entity models (`src/apps/iiot/model/`)

Pydantic models become structures; `Optional[T]` becomes `Option T`;
`Dict[str, Any]` metadata dicts become association lists over strings.
A pydantic field declared without a default is required: constructing the
model with that field absent raises a `ValidationError`. -/

/-- `EdgeContext` from `src/apps/iiot/model/customer.py`. -/
structure EdgeContext where
  edge_id : String
deriving DecidableEq, Repr

/-- `CustomerStatus` literal from `src/apps/iiot/model/customer.py`. -/
inductive CustomerStatus where
  | survey_pending
  | survey_in_progress
  | survey_completed
  | quotation_ready
  | integration_in_progress
  | integration_completed
  | finalized
deriving DecidableEq, Repr

/-- `Customer` from `src/apps/iiot/model/customer.py`.  `customer_id`,
`name` and `industry` are declared with `Field(description=...)` and no
default, so they are required; `status` defaults to `"survey_pending"`;
`description` and `edge_context` default to `None`. -/
structure Customer where
  customer_id : String
  name : String
  industry : String
  description : Option String := none
  status : CustomerStatus := CustomerStatus.survey_pending
  edge_context : Option EdgeContext := none
deriving DecidableEq, Repr

/-- Pydantic construction of `Customer` from possibly-absent field values:
`Customer(**kwargs)`.  The three required fields must be present or a
`ValidationError` is raised; `Customer()` is `Customer.construct none none
none none none none`. -/
def Customer.construct (customer_id name industry description : Option String)
    (status : Option CustomerStatus) (edge_context : Option EdgeContext) :
    Except String Customer :=
  match customer_id, name, industry with
  | some c, some n, some i =>
    Except.ok { customer_id := c, name := n, industry := i,
                description := description,
                status := status.getD CustomerStatus.survey_pending,
                edge_context := edge_context }
  | _, _, _ =>
    Except.error "ValidationError: customer_id, name and industry are required"

/-- `SurveyPoint` from `src/apps/iiot/model/survey.py`. -/
structure SurveyPoint where
  name : String
  description : Option String := none
  address : Option String := none
  signal_type : Option String := none
  extra_data : List (String × String) := []
  is_ignored : Bool := false
deriving DecidableEq, Repr

/-- `SurveyController` from `src/apps/iiot/model/survey.py`. -/
structure SurveyController where
  name : String
  type : String
  vendor : Option String := none
  model : Option String := none
  protocol : Option String := none
  points : List SurveyPoint := []
  extra_data : List (String × String) := []
  is_ignored : Bool := false
deriving DecidableEq, Repr

/-- `SurveyMachine` from `src/apps/iiot/model/survey.py`. -/
structure SurveyMachine where
  name : String
  description : Option String := none
  quantity : Int := 1
  planned_machine_ids : List String := []
  controllers : List SurveyController := []
  extra_data : List (String × String) := []
  is_ignored : Bool := false
deriving DecidableEq, Repr

/-- `SurveyArea` from `src/apps/iiot/model/survey.py`. -/
structure SurveyArea where
  code : Option String := none
  name : String
  machines : List SurveyMachine := []
  is_production_line : Option Bool := none
  extra_data : List (String × String) := []
  is_ignored : Bool := false
deriving DecidableEq, Repr

/-- `SurveyFactory` from `src/apps/iiot/model/survey.py`.  `survey_id`,
`factory_name`, `survey_date` and `customer_id` are required fields. -/
structure SurveyFactory where
  survey_id : String
  factory_name : String
  survey_date : String
  areas : List SurveyArea := []
  extra_data : List (String × String) := []
  customer_id : String
deriving DecidableEq, Repr

/-! ## Entity repository (`src/persistences/db/iiot.py`)

The MongoDB collections become association lists from `_id` to the stored
entity value (`model_dump`/`model_validate` round-trip on an already valid
value is the identity, so documents are held as the entity values
themselves).  `replace_one(..., upsert=True)` replaces the document with a
matching `_id` or inserts a new one. -/

/-- A document collection keyed by `_id`. -/
abbrev Collection (α : Type) : Type := List (String × α)

/-- `find_one({"_id": key})`: the first document with the given key. -/
def Collection.findOne {α : Type} (c : Collection α) (key : String) : Option α :=
  (List.find? (fun p => p.1 == key) c).map (fun p => p.2)

/-- `replace_one({"_id": key}, doc, upsert=True)`: replace the document
with the matching key, or insert it when absent. -/
def Collection.replaceOne {α : Type} (c : Collection α) (key : String) (v : α) :
    Collection α :=
  if (List.find? (fun p => p.1 == key) c).isSome then
    List.map (fun p => if p.1 == key then (key, v) else p) c
  else
    c ++ [(key, v)]

/-- `IIoTMongoDBRepository.find_customer` (`src/persistences/db/iiot.py:24-30`):
look up the document by `_id`; when absent the code executes
`return Customer()`, i.e. pydantic construction with every field absent. -/
def find_customer (customers : Collection Customer) (customer_id : String) :
    Except String Customer :=
  match customers.findOne customer_id with
  | none => Customer.construct none none none none none none
  | some doc => Except.ok doc

/-- `IIoTMongoDBRepository.store_customer` (`src/persistences/db/iiot.py:32-39`). -/
def store_customer (customers : Collection Customer) (customer : Customer) :
    Collection Customer :=
  customers.replaceOne customer.customer_id customer

/-- `IIoTMongoDBRepository.find_survey` (`src/persistences/db/iiot.py:74-80`);
like `find_customer`, the absent branch executes `return SurveyFactory()`
with four required fields absent. -/
def find_survey (surveys : Collection SurveyFactory) (survey_id : String) :
    Except String SurveyFactory :=
  match surveys.findOne survey_id with
  | none => Except.error
      "ValidationError: survey_id, factory_name, survey_date and customer_id are required"
  | some doc => Except.ok doc

/-- `IIoTMongoDBRepository.store_survey` (`src/persistences/db/iiot.py:82-89`). -/
def store_survey (surveys : Collection SurveyFactory) (survey : SurveyFactory) :
    Collection SurveyFactory :=
  surveys.replaceOne survey.survey_id survey

/-! ## Top-level orchestration graph (`src/apps/iiot/iiot.py`)

Nodes `supervisor`, `update_customer`, `survey_agent`,
`integration_agent`; conditional edges from `supervisor` via
`should_continue`; unconditional edges from every worker back to
`supervisor`.  The chat model and the trustcall extractor are external: a
node that consumes them takes their produced value as an argument.  The
nested sub-agent graphs are passed as functions from (input messages,
supervisor message) to the final state's messages, `Except` modelling a
raised exception. -/

namespace IIoT

/-- The targets of the top-level conditional edge, the `Literal` return
type of `IIoTApp.should_continue`.  Note this graph registers no error
node. -/
inductive Node where
  | end_
  | update_customer
  | survey_agent
  | integration_agent
deriving DecidableEq, Repr

/-- `IIoTApp.should_continue` (`src/apps/iiot/iiot.py:190-213`): no tool
call on the last message ends the graph; otherwise the first tool call's
`route` argument selects the worker, and an unrecognized route executes
`raise ValueError`. -/
def should_continue (msgs : List Message) : Except String Node :=
  match msgs.getLast? with
  | none => Except.error "IndexError: list index out of range"
  | some message =>
    match message.tool_calls with
    | [] => Except.ok Node.end_
    | tc :: _ =>
      match tc.arg "route" with
      | none => Except.error "KeyError: route"
      | some route =>
        if route == "update_customer" then Except.ok Node.update_customer
        else if route == "survey" then Except.ok Node.survey_agent
        else if route == "integration" then Except.ok Node.integration_agent
        else Except.error "ValueError"

/-- The vertices of the compiled top-level workflow. -/
inductive Vertex where
  | start
  | supervisor
  | update_customer
  | survey_agent
  | integration_agent
deriving DecidableEq, Repr

/-- The unconditional `add_edge` calls of the top-level workflow
(`src/apps/iiot/iiot.py:141-146`); the conditional edge out of
`supervisor` is `should_continue` above. -/
def edges : List (Vertex × Vertex) :=
  [(Vertex.start, Vertex.supervisor),
   (Vertex.update_customer, Vertex.supervisor),
   (Vertex.survey_agent, Vertex.supervisor),
   (Vertex.integration_agent, Vertex.supervisor)]

/-- `IIoTApp.update_customer` (`src/apps/iiot/iiot.py:216-268`): read the
persisted customer (the baseline fed to the extractor), then, given the
extractor's `responses`, either report `"no updates"` and leave the store
untouched, or validate and store `responses[0]` and report
`"updated customer"`.  Returns the appended messages and the resulting
customer collection. -/
def update_customer (responses : List Customer) (customers : Collection Customer)
    (customer_id : String) (msgs : List Message) :
    Except String (List Message × Collection Customer) :=
  match msgs.getLast? with
  | none => Except.error "IndexError: list index out of range"
  | some ai_msg =>
    match ai_msg.tool_calls with
    | [] => Except.error "IndexError: list index out of range"
    | tc :: _ =>
      match find_customer customers customer_id with
      | Except.error e => Except.error e
      | Except.ok _customer =>
        match responses with
        | [] => Except.ok ([toolMessage "no updates" tc.id], customers)
        | r :: _ =>
          Except.ok ([toolMessage "updated customer" tc.id], store_customer customers r)

/-- `IIoTApp.call_survey_agent` (`src/apps/iiot/iiot.py:271-284`): invoke
the survey sub-graph on `state["messages"][:-1]` and the tool call's
`supervisor_message`, and wrap its final message content into a tool
message.  There is no `try` block here: an exception raised by the
sub-agent propagates. -/
def call_survey_agent (agent : List Message → String → Except String (List Message))
    (msgs : List Message) : Except String (List Message) :=
  match msgs.getLast? with
  | none => Except.error "IndexError: list index out of range"
  | some ai_msg =>
    match ai_msg.tool_calls with
    | [] => Except.error "IndexError: list index out of range"
    | tc :: _ =>
      match tc.arg "supervisor_message" with
      | none => Except.error "KeyError: supervisor_message"
      | some sm =>
        match agent msgs.dropLast sm with
        | Except.error e => Except.error e
        | Except.ok resp =>
          match resp.getLast? with
          | none => Except.error "IndexError: list index out of range"
          | some last => Except.ok [toolMessage last.content tc.id]

/-- `IIoTApp.call_integration_agent` (`src/apps/iiot/iiot.py:287-300`):
same shape as `call_survey_agent`, calling the integration sub-graph;
also without a `try` block. -/
def call_integration_agent (agent : List Message → String → Except String (List Message))
    (msgs : List Message) : Except String (List Message) :=
  match msgs.getLast? with
  | none => Except.error "IndexError: list index out of range"
  | some ai_msg =>
    match ai_msg.tool_calls with
    | [] => Except.error "IndexError: list index out of range"
    | tc :: _ =>
      match tc.arg "supervisor_message" with
      | none => Except.error "KeyError: supervisor_message"
      | some sm =>
        match agent msgs.dropLast sm with
        | Except.error e => Except.error e
        | Except.ok resp =>
          match resp.getLast? with
          | none => Except.error "IndexError: list index out of range"
          | some last => Except.ok [toolMessage last.content tc.id]

/-- `IIoTApp.ainvoke` returns `response["messages"][-1].content`
(`src/apps/iiot/iiot.py:316-326`): the session response of a terminated
graph run is the content of the final state's last message. -/
def session_response (final_messages : List Message) : Except String String :=
  match final_messages.getLast? with
  | none => Except.error "IndexError: list index out of range"
  | some m => Except.ok m.content

end IIoT

/-! ## Survey sub-graph (`src/apps/iiot/survey.py`) -/

namespace Survey

/-- Targets of the survey graph's conditional edge
(`should_continue`, `src/apps/iiot/survey.py:87-100`). -/
inductive Node where
  | end_
  | update_survey
  | handle_error
deriving DecidableEq, Repr

/-- `should_continue` (`src/apps/iiot/survey.py:87-100`): the decision
argument here is `update_type`; `"survey"` routes to the worker and any
other value routes to `handle_error`. -/
def should_continue (msgs : List Message) : Except String Node :=
  match msgs.getLast? with
  | none => Except.error "IndexError: list index out of range"
  | some message =>
    match message.tool_calls with
    | [] => Except.ok Node.end_
    | tc :: _ =>
      match tc.arg "update_type" with
      | none => Except.error "KeyError: update_type"
      | some t =>
        if t == "survey" then Except.ok Node.update_survey
        else Except.ok Node.handle_error

/-- `handle_error` (`src/apps/iiot/survey.py:103-110`): a tool message
correlated to the offending tool call whose content interpolates
`tool_call["args"].get("route", "unknown")` — note the lookup key is
`route` even though this graph's decision argument is `update_type`. -/
def handle_error (msgs : List Message) : Except String (List Message) :=
  match msgs.getLast? with
  | none => Except.error "IndexError: list index out of range"
  | some ai_msg =>
    match ai_msg.tool_calls with
    | [] => Except.error "IndexError: list index out of range"
    | tc :: _ =>
      Except.ok [toolMessage ("error: unknown route " ++ tc.argD "route" "unknown") tc.id]

/-- `update_survey` (`src/apps/iiot/survey.py:113-167`): with zero
extractor responses report `"no updates"` and leave the store untouched;
otherwise validate and store every response in order (`for resp in
result["responses"]: ... repo.store_survey(survey)`) and report
`"updated survey factory"`. -/
def update_survey (responses : List SurveyFactory) (surveys : Collection SurveyFactory)
    (msgs : List Message) :
    Except String (List Message × Collection SurveyFactory) :=
  match msgs.getLast? with
  | none => Except.error "IndexError: list index out of range"
  | some ai_msg =>
    match ai_msg.tool_calls with
    | [] => Except.error "IndexError: list index out of range"
    | tc :: _ =>
      match responses with
      | [] => Except.ok ([toolMessage "no updates" tc.id], surveys)
      | _ :: _ =>
        Except.ok ([toolMessage "updated survey factory" tc.id],
                   responses.foldl store_survey surveys)

/-- Vertices of the compiled survey workflow. -/
inductive Vertex where
  | start
  | model
  | update_survey
  | handle_error
deriving DecidableEq, Repr

/-- The unconditional `add_edge` calls (`src/apps/iiot/survey.py:179-182`). -/
def edges : List (Vertex × Vertex) :=
  [(Vertex.start, Vertex.model),
   (Vertex.update_survey, Vertex.model),
   (Vertex.handle_error, Vertex.model)]

end Survey

/-! ## Integration sub-graph (`src/apps/iiot/integration/integration.py`) -/

namespace Integration

/-- Targets of the integration graph's conditional edge. -/
inductive Node where
  | end_
  | mapping_agent
  | connectivity_agent
  | handle_error
deriving DecidableEq, Repr

/-- `should_continue` (`src/apps/iiot/integration/integration.py:117-138`):
registered routes `mapping` and `connectivity` reach their workers; any
other route value reaches `handle_error`. -/
def should_continue (msgs : List Message) : Except String Node :=
  match msgs.getLast? with
  | none => Except.error "IndexError: list index out of range"
  | some message =>
    match message.tool_calls with
    | [] => Except.ok Node.end_
    | tc :: _ =>
      match tc.arg "route" with
      | none => Except.error "KeyError: route"
      | some route =>
        if route == "mapping" then Except.ok Node.mapping_agent
        else if route == "connectivity" then Except.ok Node.connectivity_agent
        else Except.ok Node.handle_error

/-- `handle_error` (`src/apps/iiot/integration/integration.py:140-147`):
text-identical to the survey graph's handler; here the decision argument
really is `route`, so the content names the unrecognized route. -/
def handle_error (msgs : List Message) : Except String (List Message) :=
  match msgs.getLast? with
  | none => Except.error "IndexError: list index out of range"
  | some ai_msg =>
    match ai_msg.tool_calls with
    | [] => Except.error "IndexError: list index out of range"
    | tc :: _ =>
      Except.ok [toolMessage ("error: unknown route " ++ tc.argD "route" "unknown") tc.id]

/-- `call_mapping_agent` (`src/apps/iiot/integration/integration.py:150-169`):
the sub-agent invocation sits inside `try: ... except Exception as e:
tool_msg.content = f"error: \x7be\x7d"`, so any exception raised while the
worker executes is converted into the tool message's content; the
accesses to `messages[-1]` and `tool_calls[0]` happen before the `try`
and are not protected. -/
def call_mapping_agent (agent : List Message → String → Except String (List Message))
    (msgs : List Message) : Except String (List Message) :=
  match msgs.getLast? with
  | none => Except.error "IndexError: list index out of range"
  | some ai_msg =>
    match ai_msg.tool_calls with
    | [] => Except.error "IndexError: list index out of range"
    | tc :: _ =>
      let attempt : Except String String :=
        match tc.arg "supervisor_message" with
        | none => Except.error "KeyError: supervisor_message"
        | some sm =>
          match agent msgs.dropLast sm with
          | Except.error e => Except.error e
          | Except.ok resp =>
            match resp.getLast? with
            | none => Except.error "IndexError: list index out of range"
            | some last => Except.ok last.content
      let content := match attempt with
        | Except.ok c => c
        | Except.error e => "error: " ++ e
      Except.ok [toolMessage content tc.id]

/-- Vertices of the compiled integration workflow. -/
inductive Vertex where
  | start
  | supervisor
  | mapping_agent
  | connectivity_agent
  | handle_error
deriving DecidableEq, Repr

/-- The unconditional `add_edge` calls
(`src/apps/iiot/integration/integration.py:205-210`). -/
def edges : List (Vertex × Vertex) :=
  [(Vertex.start, Vertex.supervisor),
   (Vertex.mapping_agent, Vertex.supervisor),
   (Vertex.connectivity_agent, Vertex.supervisor),
   (Vertex.handle_error, Vertex.supervisor)]

end Integration

/-! ## Protocol stream model and default entry points
(`src/protocol.py`, `src/apps/base.py`) -/

/-- `ToolCall` from `src/protocol.py:25-29` (the wire model used inside
stream chunks; distinct from the langchain-side `ToolCall` above). -/
structure StreamToolCall where
  id : Option String := none
  name : Option String := none
  args : Option String := none
deriving DecidableEq, Repr

/-- `MessageChunk` from `src/protocol.py:56-63`.  These are exactly the
declared fields; pydantic's default configuration ignores unknown
constructor keyword arguments. -/
structure MessageChunk where
  nodes : List String := []
  role : Role
  content : String
  tool_calls : List StreamToolCall := []
  tool_call_id : Option String := none
  is_new : Bool := false
deriving DecidableEq, Repr

/-- One event of the underlying graph stream consumed by
`BaseAIApp.astream`: the emitting node path plus the chunk payload.  The
source type-tests the payload (`isinstance(chunk, AIMessageChunk)`,
`isinstance(chunk, ToolMessage)`); any other payload falls through both
branches and is not re-emitted, though the loop still runs for it. -/
inductive FragmentKind where
  | aiChunk (content : String) (tool_call_chunks : List StreamToolCall)
  | toolResult (content : String) (tool_call_id : String)
  | otherChunk
deriving DecidableEq, Repr

/-- A tagged fragment of the graph stream. -/
structure Fragment where
  nodes : List String
  kind : FragmentKind
deriving DecidableEq, Repr

namespace Base

/-- The loop body of `BaseAIApp.astream` (`src/apps/base.py:74-113`):
`current_nodes` starts as `None` and is assigned the fragment's node path
at the end of every iteration — including iterations whose chunk kind is
neither an ai chunk nor a tool message and therefore yields nothing.
`is_new` on an emitted chunk is `current_nodes != nodes` at the moment it
is built. -/
def emitChunks (current_nodes : Option (List String)) :
    List Fragment → List MessageChunk
  | [] => []
  | f :: fs =>
    let is_new : Bool := !(current_nodes == some f.nodes)
    let rest := emitChunks (some f.nodes) fs
    match f.kind with
    | FragmentKind.aiChunk c tcs =>
      { nodes := f.nodes, role := Role.ai, content := c,
        tool_calls := tcs, is_new := is_new } :: rest
    | FragmentKind.toolResult c i =>
      { nodes := f.nodes, role := Role.tool, content := c,
        tool_call_id := some i, is_new := is_new } :: rest
    | FragmentKind.otherChunk => rest

/-- `list(nodes) if current_nodes else []` in the `except` clause: after
the loop the cursor holds the last observed fragment's node path (a falsy
`None`, or an empty path, both give `[]`). -/
def errorNodes (frags : List Fragment) : List String :=
  match (frags.getLast?).map Fragment.nodes with
  | none => []
  | some ns => ns

/-- `BaseAIApp.astream` (`src/apps/base.py:61-123`).  `failure = some e`
models the underlying traversal raising an exception with text `e` after
producing `frags`; the `except Exception` clause then yields one last
chunk built as `MessageChunk(nodes=list(nodes) if current_nodes else [],
role=Role.AI, content=f"error: ...", is_complete=True)`.  `is_complete`
is not a field of `MessageChunk`, so the constructed chunk carries the
default `is_new = False`. -/
def errorChunk (frags : List Fragment) (e : String) : MessageChunk :=
  { nodes := errorNodes frags, role := Role.ai,
    content := "error: " ++ e, is_new := false }

/-- The loop plus its `except` clause: the full emitted stream of
`BaseAIApp.astream` for a traversal that yields `frags` and then either
completes (`failure = none`) or raises (`failure = some e`). -/
def astream (frags : List Fragment) (failure : Option String) : List MessageChunk :=
  let emitted := emitChunks none frags
  match failure with
  | none => emitted
  | some e => emitted ++ [errorChunk frags e]

/-- `BaseAIApp.ainvoke` (`src/apps/base.py:43-59`), identical to the
default body in `AIAppProtocol.ainvoke` (`src/protocol.py:127-143`).  The
argument is the outcome of `self.app.ainvoke(...)` — the final graph
state's messages, or the text of a raised exception.  The indexing
`response["messages"][-1]` happens inside the `try`, so an empty final
message list is also converted to an error string rather than raised. -/
def ainvoke (result : Except String (List Message)) : String :=
  match result with
  | Except.error e => "error: " ++ e
  | Except.ok msgs =>
    match msgs.getLast? with
    | none => "error: list index out of range"
    | some m => m.content

end Base

/-! ## Sessions (`src/protocol.py`, `src/persistences/db/chat.py`) -/

/-- `Session` from `src/protocol.py:150-152`. -/
structure Session where
  id : String
  app_name : String
deriving DecidableEq, Repr

/-- `ChatContext` from `src/protocol.py:78-91`. -/
structure ChatContext where
  session_id : Option String := none
  user_id : Option String := none
  customer_id : Option String := none
  workspace_id : Option String := none
deriving DecidableEq, Repr

/-- `ChatDatabaseRepository.find_session`
(`src/persistences/db/chat.py:38-46`): select the session row by id and
`raise ValueError("session not found")` when no row matches (a `None`
session id matches no row). -/
def find_session (sessions : List Session) (session_id : Option String) :
    Except String Session :=
  match session_id with
  | none => Except.error "session not found"
  | some sid =>
    match sessions.find? (fun s => s.id == sid) with
    | none => Except.error "session not found"
    | some s => Except.ok s

/-- Modelled from the spec: the `ChatService` class implementing
`ChatServiceProtocol.send_message` is not under `src/` — only the
protocol (`src/protocol.py:155-188`), its endpoints (`src/endpoint.py`)
and the wiring (`src/main.py:123-147`) are.  Per the spec, "Both require
`context.session_id` to resolve an existing session; both append exactly
one human Message before executing the graph": the turn first resolves
the session through `ChatDatabaseRepository.find_session` (which raises
`ValueError("session not found")`), and only then hands the turn to the
resolved app's graph execution, abstracted here as `run_turn`. -/
def send_message (sessions : List Session)
    (run_turn : ChatContext → String → Except String String)
    (ctx : ChatContext) (content : String) : Except String String := do
  let _session ← find_session sessions ctx.session_id
  run_turn ctx content

/-! ## Helper lemmas about the context-window selection -/

/-- The core of `trim_messages` after the optional trailing trim: keep the
last `max_tokens` messages, then drop leading non-human ones. -/
def trimCore (max_tokens : Nat) (l : List Message) : List Message :=
  (takeRight max_tokens l).dropWhile (fun m => !(m.role == Role.human))

theorem trim_messages_none_eq (msgs : List Message) (B : Nat) :
    trim_messages msgs B none = trimCore B msgs := rfl

theorem trim_messages_some_eq (msgs : List Message) (B : Nat) (roles : List Role) :
    trim_messages msgs B (some roles) = trimCore B (endOnTrim roles msgs) := rfl

/-- The head of a `dropWhile` result falsifies the dropped predicate. -/
theorem head?_dropWhile_false {α : Type} (p : α → Bool) (l : List α) {x : α}
    (h : (l.dropWhile p).head? = some x) : p x = false := by
  induction l with
  | nil => simp [List.dropWhile] at h
  | cons a t ih =>
    rw [List.dropWhile_cons] at h
    split at h
    · exact ih h
    · next hp =>
      simp only [List.head?_cons, Option.some.injEq] at h
      subst h
      simpa using hp

/-- `dropWhile` keeps the last element of a list it does not empty. -/
theorem getLast?_dropWhile_of_ne_nil {α : Type} (p : α → Bool) (l : List α)
    (h : l.dropWhile p ≠ []) : (l.dropWhile p).getLast? = l.getLast? := by
  obtain ⟨t, ht⟩ := List.dropWhile_suffix (l := l) p
  conv_rhs => rw [← ht]
  rw [List.getLast?_append_of_ne_nil t h]

/-- `drop` keeps the last element of a list it does not empty. -/
theorem getLast?_drop_of_ne_nil {α : Type} (n : Nat) (l : List α)
    (h : l.drop n ≠ []) : (l.drop n).getLast? = l.getLast? := by
  obtain ⟨t, ht⟩ := List.drop_suffix n l
  conv_rhs => rw [← ht]
  rw [List.getLast?_append_of_ne_nil t h]

theorem trimCore_length_le (B : Nat) (l : List Message) : (trimCore B l).length ≤ B := by
  have h1 : (trimCore B l).length ≤ (takeRight B l).length :=
    ((List.dropWhile_suffix _).sublist).length_le
  have h2 : (takeRight B l).length = l.length - (l.length - B) :=
    List.length_drop _ _
  omega

theorem trimCore_head_human (B : Nat) (l : List Message) {m : Message}
    (h : (trimCore B l).head? = some m) : m.role = Role.human := by
  have hp := head?_dropWhile_false _ _ h
  simpa using hp

theorem trimCore_suffix (B : Nat) (l : List Message) : trimCore B l <:+ l :=
  (List.dropWhile_suffix _).trans (List.drop_suffix _ _)

theorem trimCore_subset (B : Nat) (l : List Message) :
    ∀ m ∈ trimCore B l, m ∈ l := fun _ hm =>
  ((trimCore_suffix B l).sublist).subset hm

theorem trimCore_eq_nil_of_no_human (B : Nat) (l : List Message)
    (h : ∀ m ∈ l, m.role ≠ Role.human) : trimCore B l = [] := by
  rw [trimCore, List.dropWhile_eq_nil_iff]
  intro x hx
  have hxl : x ∈ l := List.drop_subset _ _ hx
  simpa using h x hxl

theorem trimCore_getLast? (B : Nat) (l : List Message)
    (h : trimCore B l ≠ []) : (trimCore B l).getLast? = l.getLast? := by
  have h2 : takeRight B l ≠ [] := by
    intro he
    apply h
    rw [trimCore, he]
    rfl
  rw [trimCore] at h ⊢
  rw [getLast?_dropWhile_of_ne_nil _ _ h]
  exact getLast?_drop_of_ne_nil _ _ h2

theorem endOnTrim_decomp (roles : List Role) (l : List Message) :
    ∃ post, l = endOnTrim roles l ++ post ∧
      ∀ m ∈ post, (roles.contains m.role) = false := by
  refine ⟨(l.reverse.takeWhile (fun m => !(roles.contains m.role))).reverse, ?_, ?_⟩
  · conv_lhs =>
      rw [← l.reverse_reverse,
          ← List.takeWhile_append_dropWhile (p := fun m => !(roles.contains m.role))
            (l := l.reverse)]
    rw [List.reverse_append]
    rfl
  · intro m hm
    have hm2 : m ∈ l.reverse.takeWhile (fun m => !(roles.contains m.role)) := by
      simpa using hm
    simpa using List.mem_takeWhile_imp hm2

theorem endOnTrim_getLast? (roles : List Role) (l : List Message) {m : Message}
    (h : (endOnTrim roles l).getLast? = some m) : (roles.contains m.role) = true := by
  rw [endOnTrim, List.getLast?_reverse] at h
  have := head?_dropWhile_false _ _ h
  simpa using this

/-- C5: for every message sequence and budget, the selected window has at
most the budget's number of unit-size-1 messages, starts (when non-empty)
on a human message, is empty when no human message survives, and is a
trailing subsequence; with `end_on=["human", "ai"]` the window is a
trailing subsequence of the sequence minus its trailing block of
non-human/non-ai messages (hence contiguous in the original) and, when
non-empty, ends on a human or ai message. -/
theorem C5_window_invariant (msgs : List Message) (B : Nat) :
    ((trim_messages msgs B none).length ≤ B ∧
     trim_messages msgs B none <:+ msgs ∧
     (∀ m, (trim_messages msgs B none).head? = some m → m.role = Role.human) ∧
     ((∀ m ∈ msgs, m.role ≠ Role.human) → trim_messages msgs B none = [])) ∧
    ((trim_messages msgs B (some [Role.human, Role.ai])).length ≤ B ∧
     (∃ pre post, msgs = pre ++ trim_messages msgs B (some [Role.human, Role.ai]) ++ post ∧
        ∀ m ∈ post, m.role ≠ Role.human ∧ m.role ≠ Role.ai) ∧
     (∀ m, (trim_messages msgs B (some [Role.human, Role.ai])).head? = some m →
        m.role = Role.human) ∧
     ((∀ m ∈ msgs, m.role ≠ Role.human) →
        trim_messages msgs B (some [Role.human, Role.ai]) = []) ∧
     (∀ m, (trim_messages msgs B (some [Role.human, Role.ai])).getLast? = some m →
        m.role = Role.human ∨ m.role = Role.ai)) := by
  rw [trim_messages_none_eq, trim_messages_some_eq]
  refine ⟨⟨trimCore_length_le B msgs, trimCore_suffix B msgs,
      fun m h => trimCore_head_human B msgs h,
      fun h => trimCore_eq_nil_of_no_human B msgs h⟩,
    trimCore_length_le B _, ?_, fun m h => trimCore_head_human B _ h, ?_, ?_⟩
  · obtain ⟨post, hdec, hpost⟩ := endOnTrim_decomp [Role.human, Role.ai] msgs
    obtain ⟨pre, hpre⟩ := trimCore_suffix B (endOnTrim [Role.human, Role.ai] msgs)
    refine ⟨pre, post, ?_, ?_⟩
    · conv_lhs => rw [hdec, ← hpre]
    · intro m hm
      have := hpost m hm
      constructor <;> (intro hr; rw [hr] at this; simp at this)
  · intro h
    apply trimCore_eq_nil_of_no_human
    intro m hm
    obtain ⟨post, hdec, _⟩ := endOnTrim_decomp [Role.human, Role.ai] msgs
    have hmem : m ∈ msgs := by
      rw [hdec]
      exact List.mem_append_left _ hm
    exact h m hmem
  · intro m h
    have hne : trimCore B (endOnTrim [Role.human, Role.ai] msgs) ≠ [] := by
      intro he
      rw [he] at h
      simp at h
    rw [trimCore_getLast? B _ hne] at h
    have := endOnTrim_getLast? [Role.human, Role.ai] msgs h
    simpa using this

/-- Concrete check of the window invariant: a supervisor-path selection on
a sequence with no human message is empty, and a budget-2 selection never
exceeds two messages. -/
theorem C5_witness :
    trim_messages [{ role := Role.ai, content := "a" },
                   { role := Role.tool, content := "b", tool_call_id := some "t1" }] 3 none
      = [] ∧
    (trim_messages [{ role := Role.human, content := "h" },
                    { role := Role.ai, content := "a" }] 2 none).length ≤ 2 :=
  ⟨((C5_window_invariant _ 3).1.2.2.2) (by decide),
   (C5_window_invariant _ 2).1.1⟩

/-! ## Stream boundary semantics -/

/-- The claimed boundary-uniqueness property over a chunk sequence:
`is_new` holds on a chunk iff its `nodes` differ from the previously
listed chunk's `nodes`, the first chunk comparing against `prev`
(an absent `prev` differs from everything, so event 0 must carry
`is_new = true`). -/
def boundarySpec : Option (List String) → List MessageChunk → Bool
  | _, [] => true
  | prev, c :: cs =>
    (c.is_new == !(prev == some c.nodes)) && boundarySpec (some c.nodes) cs

/-- Over fragments that are all re-emitted (ai chunks or tool results),
the emitted chunk sequence satisfies the boundary property relative to
any starting cursor. -/
theorem emitChunks_boundarySpec (frags : List Fragment)
    (h : ∀ f ∈ frags, f.kind ≠ FragmentKind.otherChunk) :
    ∀ cur, boundarySpec cur (Base.emitChunks cur frags) = true := by
  induction frags with
  | nil => intro cur; rfl
  | cons f fs ih =>
    intro cur
    have hf := h f (List.mem_cons_self f fs)
    have hfs : ∀ g ∈ fs, g.kind ≠ FragmentKind.otherChunk :=
      fun g hg => h g (List.mem_cons_of_mem f hg)
    match hk : f.kind with
    | FragmentKind.aiChunk c tcs =>
      rw [Base.emitChunks, hk]
      simp only [boundarySpec, Bool.and_eq_true, beq_self_eq_true]
      exact ⟨trivial, ih hfs (some f.nodes)⟩
    | FragmentKind.toolResult c i =>
      rw [Base.emitChunks, hk]
      simp only [boundarySpec, Bool.and_eq_true, beq_self_eq_true]
      exact ⟨trivial, ih hfs (some f.nodes)⟩
    | FragmentKind.otherChunk => exact absurd hk hf

/-- C7 (amended): on a traversal that completes without failure and whose
observed fragments are all of the two re-emitted kinds, `is_new` is true
on event 0 (if any) and exactly on the later events whose `nodes` differ
from the immediately preceding emitted event's `nodes`.  (When a fragment
of another kind is observed, the cursor still advances, so the comparison
is against the preceding observed fragment rather than the preceding
emitted event — see the counterexample; and the diagnostic event emitted
on failure carries `is_new = false`.) -/
theorem C7_boundary_uniqueness (frags : List Fragment)
    (h : ∀ f ∈ frags, f.kind ≠ FragmentKind.otherChunk) :
    boundarySpec none (Base.astream frags none) = true :=
  emitChunks_boundarySpec frags h none

/-- Concrete check of the amended boundary property on a two-node
`supervisor → survey_agent` stream. -/
theorem C7_witness :
    boundarySpec none (Base.astream
      [{ nodes := ["supervisor"], kind := FragmentKind.aiChunk "a" [] },
       { nodes := ["supervisor"], kind := FragmentKind.aiChunk "b" [] },
       { nodes := ["supervisor", "survey_agent"], kind := FragmentKind.aiChunk "c" [] }]
      none) = true :=
  C7_boundary_uniqueness _ (by decide)

/-- Input refuting C7 as stated: a fragment of a non-emitted kind (for
node path `["b"]`) sits between two ai chunks for node path `["a"]`. -/
def c7frags : List Fragment :=
  [{ nodes := ["a"], kind := FragmentKind.aiChunk "x" [] },
   { nodes := ["b"], kind := FragmentKind.otherChunk },
   { nodes := ["a"], kind := FragmentKind.aiChunk "y" [] }]

/-- C7 fails as stated: both emitted events carry node path `["a"]`, yet
the second one has `is_new = true` (the cursor was advanced to `["b"]` by
the skipped fragment), so `is_new` is not true exactly on the events
whose node path differs from the immediately preceding emitted event's. -/
theorem C7_counterexample :
    (Base.astream c7frags none).map (fun c => (c.nodes, c.is_new))
      = [(["a"], true), (["a"], true)] ∧
    boundarySpec none (Base.astream c7frags none) = false := by
  constructor <;> rfl

/-- C6 (amended): when the underlying traversal fails with exception text
`e` after producing `frags`, the stream equals the failure-free emission
followed by exactly one final event, that final event has role ai and the
diagnostic content `"error: " ++ e` — but its `is_new` flag is `false`
(the source passes `is_complete=True`, which is not a `MessageChunk`
field, so the boundary flag keeps its default); and the stream is a plain
value, never a propagated exception. -/
theorem C6_failure_event (frags : List Fragment) (e : String) :
    (Base.astream frags (some e)).length = (Base.astream frags none).length + 1 ∧
    (Base.astream frags (some e)).take (Base.astream frags none).length
      = Base.astream frags none ∧
    ∃ c, (Base.astream frags (some e)).getLast? = some c ∧
      c.role = Role.ai ∧ c.content = "error: " ++ e ∧ c.is_new = false := by
  refine ⟨?_, ?_, ?_⟩
  · show (Base.emitChunks none frags ++ [_]).length = _
    simp [Base.astream]
  · show (Base.emitChunks none frags ++ [_]).take (Base.emitChunks none frags).length = _
    exact List.take_left _ _
  · refine ⟨Base.errorChunk frags e, ?_, rfl, rfl, rfl⟩
    show (Base.emitChunks none frags ++ [Base.errorChunk frags e]).getLast? = _
    simp

/-- C6 fails as stated: a traversal that fails before its first fragment
yields exactly one final event whose role and content are as specified
but whose `is_new` (the boundary flag) is `false`, not `true`. -/
theorem C6_counterexample :
    Base.astream [] (some "boom")
      = [{ nodes := [], role := Role.ai, content := "error: boom", is_new := false }] ∧
    ∀ c ∈ Base.astream [] (some "boom"), c.is_new = false := by
  refine ⟨rfl, ?_⟩
  intro c hc
  rw [show Base.astream [] (some "boom")
      = [{ nodes := [], role := Role.ai, content := "error: boom", is_new := false }]
    from rfl] at hc
  simp at hc
  rw [hc]

/-! ## Routing -/

/-- C1 (amended): a supervisor message without tool calls ends the graph
in both routing graphs, and the turn's response is that message's content;
with tool calls, the first tool call's `route` argument alone decides the
transition: the three registered top-level routes and the two registered
integration routes reach their workers; an unregistered route reaches the
`handle_error` node in the integration graph, but in the top-level graph
it raises `ValueError` — that graph registers no error state at all. -/
theorem C1_routing (msgs : List Message) (m : Message)
    (hlast : msgs.getLast? = some m) :
    (m.tool_calls = [] →
      IIoT.should_continue msgs = Except.ok IIoT.Node.end_ ∧
      Integration.should_continue msgs = Except.ok Integration.Node.end_ ∧
      IIoT.session_response msgs = Except.ok m.content) ∧
    (∀ tc rest r, m.tool_calls = tc :: rest → tc.arg "route" = some r →
      ((r = "update_customer" →
          IIoT.should_continue msgs = Except.ok IIoT.Node.update_customer) ∧
       (r = "survey" →
          IIoT.should_continue msgs = Except.ok IIoT.Node.survey_agent) ∧
       (r = "integration" →
          IIoT.should_continue msgs = Except.ok IIoT.Node.integration_agent) ∧
       (r ≠ "update_customer" → r ≠ "survey" → r ≠ "integration" →
          IIoT.should_continue msgs = Except.error "ValueError")) ∧
      ((r = "mapping" →
          Integration.should_continue msgs = Except.ok Integration.Node.mapping_agent) ∧
       (r = "connectivity" →
          Integration.should_continue msgs = Except.ok Integration.Node.connectivity_agent) ∧
       (r ≠ "mapping" → r ≠ "connectivity" →
          Integration.should_continue msgs = Except.ok Integration.Node.handle_error))) := by
  constructor
  · intro hempty
    refine ⟨?_, ?_, ?_⟩
    · simp only [IIoT.should_continue, hlast, hempty]
    · simp only [Integration.should_continue, hlast, hempty]
    · simp only [IIoT.session_response, hlast]
  · intro tc rest r htc harg
    constructor
    · refine ⟨?_, ?_, ?_, ?_⟩
      · intro hr
        subst hr
        simp only [IIoT.should_continue, hlast, htc, harg]
        rfl
      · intro hr
        subst hr
        simp only [IIoT.should_continue, hlast, htc, harg]
        rfl
      · intro hr
        subst hr
        simp only [IIoT.should_continue, hlast, htc, harg]
        rfl
      · intro h1 h2 h3
        simp only [IIoT.should_continue, hlast, htc, harg]
        rw [if_neg (by simp [h1]), if_neg (by simp [h2]), if_neg (by simp [h3])]
    · refine ⟨?_, ?_, ?_⟩
      · intro hr
        subst hr
        simp only [Integration.should_continue, hlast, htc, harg]
        rfl
      · intro hr
        subst hr
        simp only [Integration.should_continue, hlast, htc, harg]
        rfl
      · intro h1 h2
        simp only [Integration.should_continue, hlast, htc, harg]
        rw [if_neg (by simp [h1]), if_neg (by simp [h2])]

/-- Concrete check of the amended routing behaviour: route `survey` goes
to the survey worker, and in the integration graph the unregistered route
`deployment` goes to `handle_error`. -/
def c1wA : Message :=
  { role := Role.ai, content := "",
    tool_calls := [{ id := "w1", args := [("route", "survey")] }] }

def c1wB : Message :=
  { role := Role.ai, content := "",
    tool_calls := [{ id := "w2", args := [("route", "deployment")] }] }

theorem C1_witness :
    IIoT.should_continue [c1wA] = Except.ok IIoT.Node.survey_agent ∧
    Integration.should_continue [c1wB] = Except.ok Integration.Node.handle_error :=
  ⟨(((C1_routing [c1wA] c1wA rfl).2 _ [] "survey" rfl rfl).1).2.1 rfl,
   (((C1_routing [c1wB] c1wB rfl).2 _ [] "deployment" rfl rfl).2).2.2
     (by decide) (by decide)⟩

/-- The offending decision message for the top-level graph: its sole tool
call names the unregistered route `nonexistent`. -/
def c1msgs : List Message :=
  [{ role := Role.ai, content := "",
     tool_calls := [{ id := "call_1",
                      args := [("route", "nonexistent"),
                               ("supervisor_message", "go")] }] }]

/-- C1 fails as stated: in the top-level graph an unregistered route does
not transition to an error state — `should_continue` raises `ValueError`
(the graph registers no error node), so no transition at all is taken. -/
theorem C1_counterexample :
    IIoT.should_continue c1msgs = Except.error "ValueError" ∧
    ∀ n, IIoT.should_continue c1msgs ≠ Except.ok n := by
  refine ⟨rfl, ?_⟩
  intro n h
  rw [show IIoT.should_continue c1msgs = Except.error "ValueError" from rfl] at h
  exact Except.noConfusion h

/-- C2 (amended): on an unrecognized route both error handlers build a
tool message correlated to the offending tool-call id and return control
unconditionally to their supervisor node; the integration handler's
content names the unrecognized route (read from the `route` argument),
but the survey handler — whose decision argument is `update_type`, not
`route` — always produces the fixed content
`"error: unknown route unknown"`, naming nothing. -/
theorem C2_error_feedback :
    (∀ msgs m tc rest r, msgs.getLast? = some m → m.tool_calls = tc :: rest →
      tc.arg "route" = some r →
      Integration.handle_error msgs
        = Except.ok [toolMessage ("error: unknown route " ++ r) tc.id] ∧
      (String.toList r) <:+: (String.toList ("error: unknown route " ++ r))) ∧
    (∀ msgs m tc rest, msgs.getLast? = some m → m.tool_calls = tc :: rest →
      tc.arg "route" = none →
      Survey.handle_error msgs
        = Except.ok [toolMessage "error: unknown route unknown" tc.id]) ∧
    ((Integration.Vertex.handle_error, Integration.Vertex.supervisor)
        ∈ Integration.edges ∧
     ∀ e ∈ Integration.edges, e.1 = Integration.Vertex.handle_error →
        e.2 = Integration.Vertex.supervisor) ∧
    ((Survey.Vertex.handle_error, Survey.Vertex.model) ∈ Survey.edges ∧
     ∀ e ∈ Survey.edges, e.1 = Survey.Vertex.handle_error →
        e.2 = Survey.Vertex.model) := by
  refine ⟨?_, ?_, ⟨by decide, by decide⟩, ⟨by decide, by decide⟩⟩
  · intro msgs m tc rest r hlast htc harg
    constructor
    · simp only [Integration.handle_error, hlast, htc, ToolCall.argD, harg,
        Option.getD_some]
    · exact ⟨(String.toList "error: unknown route "), [], by simp⟩
  · intro msgs m tc rest hlast htc harg
    simp only [Survey.handle_error, hlast, htc, ToolCall.argD, harg,
      Option.getD_none]
    rfl

/-- Concrete check of the amended error feedback: the integration handler
names the route `deployment` and correlates the offending id. -/
def c2w : Message :=
  { role := Role.ai, content := "",
    tool_calls := [{ id := "w3", args := [("route", "deployment")] }] }

theorem C2_witness :
    Integration.handle_error [c2w]
      = Except.ok [toolMessage "error: unknown route deployment" "w3"] :=
  ((C2_error_feedback.1) [c2w] c2w _ [] "deployment" rfl rfl rfl).1

/-- The offending survey decision message: its sole tool call carries the
unrecognized decision value `nonexistent` (in the `update_type` argument
this graph routes on). -/
def c2msgs : List Message :=
  [{ role := Role.ai, content := "",
     tool_calls := [{ id := "call_1",
                      args := [("update_type", "nonexistent")] }] }]

/-- C2 fails as stated: the survey graph enters `handle_error` for the
unrecognized decision value `nonexistent`, but the produced tool message
content is `"error: unknown route unknown"` — it does not name
`nonexistent` (the handler looks up a `route` key the decision args do
not carry). -/
theorem C2_counterexample :
    Survey.should_continue c2msgs = Except.ok Survey.Node.handle_error ∧
    Survey.handle_error c2msgs
      = Except.ok [toolMessage "error: unknown route unknown" "call_1"] ∧
    ¬ (String.toList "nonexistent") <:+:
        (String.toList "error: unknown route unknown") := by
  refine ⟨rfl, rfl, by decide⟩

/-! ## Worker failure containment -/

/-- C3 (amended): in the integration graph, any exception raised while a
Worker executes is caught at the calling boundary and converted into a
tool message (correlated to the calling tool-call id) whose content is
the failure-prefixed diagnostic `"error: " ++ e`; but the top-level
graph's worker boundaries, `call_survey_agent` and
`call_integration_agent`, have no `try` block, so a Worker exception
there propagates out of the node uncaught. -/
theorem C3_worker_containment :
    (∀ agent msgs (m : Message) tc rest,
      msgs.getLast? = some m → m.tool_calls = tc :: rest →
      (∃ c, Integration.call_mapping_agent agent msgs
          = Except.ok [toolMessage c tc.id]) ∧
      (∀ sm e, tc.arg "supervisor_message" = some sm →
        agent msgs.dropLast sm = Except.error e →
        Integration.call_mapping_agent agent msgs
          = Except.ok [toolMessage ("error: " ++ e) tc.id])) ∧
    (∀ agent msgs (m : Message) tc rest sm e,
      msgs.getLast? = some m → m.tool_calls = tc :: rest →
      tc.arg "supervisor_message" = some sm →
      agent msgs.dropLast sm = Except.error e →
      IIoT.call_survey_agent agent msgs = Except.error e ∧
      IIoT.call_integration_agent agent msgs = Except.error e) := by
  constructor
  · intro agent msgs m tc rest hlast htc
    constructor
    · simp only [Integration.call_mapping_agent, hlast, htc]
      exact ⟨_, rfl⟩
    · intro sm e hsm hagent
      simp only [Integration.call_mapping_agent, hlast, htc, hsm, hagent]
  · intro agent msgs m tc rest sm e hlast htc hsm hagent
    constructor
    · simp only [IIoT.call_survey_agent, hlast, htc, hsm, hagent]
    · simp only [IIoT.call_integration_agent, hlast, htc, hsm, hagent]

/-- A Worker (sub-agent) whose execution raises. -/
def failingAgent : List Message → String → Except String (List Message) :=
  fun _ _ => Except.error "boom"

/-- The state under which the supervisor delegates to a worker. -/
def c3msgs : List Message :=
  [{ role := Role.human, content := "hi" },
   { role := Role.ai, content := "",
     tool_calls := [{ id := "c3",
                      args := [("supervisor_message", "survey the plant")] }] }]

/-- C3 fails as stated: a Worker exception at the top-level boundary is
not converted into a tool message — `call_survey_agent` propagates it. -/
theorem C3_counterexample :
    IIoT.call_survey_agent failingAgent c3msgs = Except.error "boom" := rfl

/-- Concrete check of the amended containment: the integration boundary
converts the same Worker failure into a failure-prefixed tool message. -/
theorem C3_witness :
    Integration.call_mapping_agent failingAgent c3msgs
      = Except.ok [toolMessage "error: boom" "c3"] :=
  ((C3_worker_containment.1 failingAgent c3msgs _ _ [] rfl rfl).2)
    "survey the plant" "boom" rfl rfl

/-! ## Reconciliation persistence -/

/-- `find?` skips a left part in which nothing matches. -/
theorem find?_append_right {α : Type} (p : α → Bool) (l1 l2 : List α)
    (h : l1.find? p = none) : (l1 ++ l2).find? p = l2.find? p := by
  induction l1 with
  | nil => rfl
  | cons a t ih =>
    by_cases hpa : p a = true
    · rw [List.find?_cons_of_pos _ hpa] at h
      exact absurd h (by simp)
    · rw [List.find?_cons_of_neg _ (by simpa using hpa)] at h
      show List.find? p (a :: (t ++ l2)) = _
      rw [List.find?_cons_of_neg _ (by simpa using hpa)]
      exact ih h

/-- After the in-place `map` replacement of `replace_one` on a collection
that does contain the key, the key maps to the new value. -/
theorem find?_map_replace {α : Type} (key : String) (v : α) (c : Collection α)
    (h : (List.find? (fun p => p.1 == key) c).isSome) :
    List.find? (fun p => p.1 == key)
      (List.map (fun p => if p.1 == key then (key, v) else p) c)
      = some (key, v) := by
  induction c with
  | nil => simp at h
  | cons q qs ih =>
    by_cases hq : (q.1 == key) = true
    · rw [List.map_cons, if_pos hq]
      exact List.find?_cons_of_pos _ (by simp)
    · rw [List.map_cons, if_neg hq]
      rw [List.find?_cons_of_neg _ (by simpa using hq)]
      rw [List.find?_cons_of_neg _ (by simpa using hq)] at h
      exact ih h

/-- `replace_one(..., upsert=True)` followed by `find_one` on the same key
returns the stored value. -/
theorem findOne_replaceOne_self {α : Type} (c : Collection α) (key : String) (v : α) :
    (c.replaceOne key v).findOne key = some v := by
  rw [Collection.replaceOne]
  cases hfind : List.find? (fun p => p.1 == key) c with
  | none =>
    simp only [Option.isSome_none, Bool.false_eq_true, if_false]
    rw [Collection.findOne, find?_append_right _ _ _ hfind]
    simp
  | some q =>
    simp only [Option.isSome_some, if_true]
    rw [Collection.findOne, find?_map_replace key v c (by rw [hfind]; rfl)]
    rfl

/-- Storing a run of surveys that all carry the same identity key leaves
the last of them as the persisted value for that key. -/
theorem foldl_store_survey_findOne (rs : List SurveyFactory) (k : String) :
    ∀ (s : Collection SurveyFactory) (last : SurveyFactory),
      rs.getLast? = some last → (∀ r ∈ rs, r.survey_id = k) →
      (rs.foldl store_survey s).findOne k = some last := by
  induction rs with
  | nil => intro s last h _; simp at h
  | cons r rs' ih =>
    intro s last h hall
    match rs' with
    | [] =>
      have hlr : r = last := by simpa using h
      subst hlr
      rw [List.foldl_cons, List.foldl_nil]
      rw [show store_survey s r = Collection.replaceOne s r.survey_id r from rfl]
      rw [hall r (List.mem_cons_self r [])]
      exact findOne_replaceOne_self s k r
    | a :: b =>
      rw [List.getLast?_cons_cons] at h
      rw [List.foldl_cons]
      exact ih (store_survey s r) last h
        (fun x hx => hall x (List.mem_cons_of_mem r hx))

/-- C4 (amended): with zero extractor responses no store write occurs and
the worker reports the tool message `"no updates"`, in both reconcilers;
with responses present, `update_customer` persists exactly the first
response, while `update_survey` persists every response in order — so for
responses sharing one identity key the last response, not the first, is
the final persisted value for that key. -/
theorem C4_reconcile_persistence
    (surveys : Collection SurveyFactory) (customers : Collection Customer)
    (customer_id : String) (msgs : List Message) (m : Message)
    (tc : ToolCall) (rest : List ToolCall)
    (hlast : msgs.getLast? = some m) (htc : m.tool_calls = tc :: rest) :
    (Survey.update_survey [] surveys msgs
        = Except.ok ([toolMessage "no updates" tc.id], surveys)) ∧
    (∀ cust, customers.findOne customer_id = some cust →
      IIoT.update_customer [] customers customer_id msgs
        = Except.ok ([toolMessage "no updates" tc.id], customers)) ∧
    (∀ cust r rs, customers.findOne customer_id = some cust →
      IIoT.update_customer (r :: rs) customers customer_id msgs
        = Except.ok ([toolMessage "updated customer" tc.id],
            store_customer customers r)) ∧
    (∀ r rs, Survey.update_survey (r :: rs) surveys msgs
        = Except.ok ([toolMessage "updated survey factory" tc.id],
            (r :: rs).foldl store_survey surveys)) ∧
    (∀ (rs : List SurveyFactory) (last : SurveyFactory) (k : String),
      rs.getLast? = some last → (∀ r ∈ rs, r.survey_id = k) →
      (rs.foldl store_survey surveys).findOne k = some last) := by
  refine ⟨?_, ?_, ?_, ?_, ?_⟩
  · simp only [Survey.update_survey, hlast, htc]
  · intro cust hcust
    simp only [IIoT.update_customer, hlast, htc, find_customer, hcust]
  · intro cust r rs hcust
    simp only [IIoT.update_customer, hlast, htc, find_customer, hcust]
  · intro r rs
    simp only [Survey.update_survey, hlast, htc]
  · intro rs last k h hall
    exact foldl_store_survey_findOne rs k surveys last h hall

/-- Two extractor responses carrying the same identity key `S1`. -/
def s4a : SurveyFactory :=
  { survey_id := "S1", factory_name := "F1",
    survey_date := "2025-05-20", customer_id := "C1" }

def s4b : SurveyFactory :=
  { survey_id := "S1", factory_name := "F2",
    survey_date := "2025-05-20", customer_id := "C1" }

def c4msgs : List Message :=
  [{ role := Role.ai, content := "",
     tool_calls := [{ id := "c4", args := [("update_type", "survey")] }] }]

/-- C4 fails as stated: with two distinct responses sharing the identity
key `S1`, `update_survey` persists both in order, so the final value for
`S1` is the second response, not the first. -/
theorem C4_counterexample :
    Survey.update_survey [s4a, s4b] [] c4msgs
      = Except.ok ([toolMessage "updated survey factory" "c4"], [("S1", s4b)]) ∧
    Collection.findOne [("S1", s4b)] "S1" = some s4b ∧ s4b ≠ s4a := by
  refine ⟨rfl, rfl, by decide⟩

def c4cust : Customer :=
  { customer_id := "C1", name := "Acme", industry := "steel" }

/-- Concrete check of the amended persistence contract: zero responses
leave the store untouched, and a single-response customer reconciliation
persists exactly that response. -/
theorem C4_witness :
    Survey.update_survey [] [] c4msgs
      = Except.ok ([toolMessage "no updates" "c4"], []) ∧
    IIoT.update_customer [c4cust] [("C1", c4cust)] "C1" c4msgs
      = Except.ok ([toolMessage "updated customer" "c4"],
          store_customer [("C1", c4cust)] c4cust) :=
  ⟨(C4_reconcile_persistence [] [] "C1" c4msgs _ _ [] rfl rfl).1,
   ((C4_reconcile_persistence [] [("C1", c4cust)] "C1" c4msgs _ _ [] rfl rfl).2.2.1)
     c4cust c4cust [] rfl⟩

/-! ## Entity read path, session precondition, turn entry point -/

/-- C8: the reconciler's read path is supposed to treat an absent
persisted entity as an empty default, but `find_customer` executes
`return Customer()` on an absent key, and `Customer` declares
`customer_id`, `name` and `industry` as required fields, so the read
raises a pydantic `ValidationError` instead of returning a default; a
present key is returned as stored. -/
theorem C8_find_customer_absent :
    find_customer [] "01JSZKQKT51WB1H7YQNSE73BGR"
      = Except.error "ValidationError: customer_id, name and industry are required" ∧
    (∀ (c : Customer), find_customer [(c.customer_id, c)] c.customer_id
      = Except.ok c) := by
  refine ⟨rfl, ?_⟩
  intro c
  simp [find_customer, Collection.findOne]

/-- C9: a turn whose context names a session id that resolves to no
existing session fails as the precondition error
`"session not found"`, uniformly in the graph-execution function — so no
Worker or Router is ever invoked for that turn. -/
theorem C9_session_precondition (sessions : List Session) (ctx : ChatContext)
    (h : ∀ s ∈ sessions, some s.id ≠ ctx.session_id) :
    ∀ (run_turn : ChatContext → String → Except String String) (content : String),
      send_message sessions run_turn ctx content
        = Except.error "session not found" := by
  intro run_turn content
  have hfind : find_session sessions ctx.session_id
      = Except.error "session not found" := by
    match hsid : ctx.session_id with
    | none => rw [find_session]
    | some sid =>
      have hnone : sessions.find? (fun s => s.id == sid) = none := by
        rw [List.find?_eq_none]
        intro x hx
        simp only [beq_iff_eq]
        intro hxe
        exact h x hx (by rw [hxe, hsid])
      simp only [find_session, hnone]
  simp only [send_message, hfind]
  rfl

/-- Concrete check: a context naming the unknown session `S2` fails the
precondition for any graph execution. -/
theorem C9_witness :
    send_message [{ id := "S1", app_name := "iiot" }]
      (fun _ _ => Except.ok "a response") { session_id := some "S2" } "hello"
      = Except.error "session not found" :=
  C9_session_precondition [{ id := "S1", app_name := "iiot" }]
    { session_id := some "S2" } (by decide) (fun _ _ => Except.ok "a response") "hello"

/-- C10: the default non-streaming turn entry point is total at its
boundary — it is a plain function of the graph outcome, returning
`"error: " ++ e` when graph execution raised `e`, the content of the
final state's last message on success, and (because the indexing is
inside the `try`) an error string rather than an exception on an empty
final message list. -/
theorem C10_ainvoke_total :
    (∀ e, Base.ainvoke (Except.error e) = "error: " ++ e) ∧
    (∀ msgs (m : Message), msgs.getLast? = some m →
      Base.ainvoke (Except.ok msgs) = m.content) ∧
    Base.ainvoke (Except.ok []) = "error: list index out of range" := by
  refine ⟨fun e => rfl, ?_, rfl⟩
  intro msgs m hlast
  simp only [Base.ainvoke, hlast]

/-- Concrete check: on a successful run the turn response is the last
message's content, and a raised exception becomes an error string. -/
theorem C10_witness :
    Base.ainvoke (Except.ok [{ role := Role.human, content := "hi" },
                             { role := Role.ai, content := "hello" }]) = "hello" ∧
    Base.ainvoke (Except.error "boom") = "error: boom" :=
  ⟨C10_ainvoke_total.2.1 _ { role := Role.ai, content := "hello" } rfl,
   C10_ainvoke_total.1 "boom"⟩

end FlarexAI
